import Mathlib

/-!
# Verification of the open-llm-router provider layer

A shallow embedding, in Lean 4, of the routing, translation and streaming
code of the `open-llm-router` repository, together with theorems checking
the natural-language specification against it.

Embedded modules:
* `src/open_llm_router/utils/model_router.py` (model resolution, credentials)
* `src/open_llm_router/providers/base.py` (response formatting, SSE stream)
* `src/openwebui_service/providers/gemini.py` (request/stream translation)
* `src/openwebui_service/providers/claude.py` (stream translation, dispatch)
* `src/openwebui_service/llm_proxy.py` (orchestrator dispatch & errors)

Python dicts are modelled as ordered association lists (first occurrence
wins on lookup; the JSON parser replaces values in place on duplicate keys,
matching `dict` assignment).  `uuid.uuid4()` and `time.time()` are modelled
as explicit parameters, since the code only ever treats them as opaque
values.  Async generators are modelled as pure functions from the list of
upstream chunks to the list of emitted events.
-/

namespace LlmRouter

/-! ## Python string primitives

Faithful models of the Python `str` operations the sources use:
`str.strip`, `str.lstrip`, `str.split("\n")`, `str.startswith`, and
slicing with a possibly negative start index. -/

/-- Python `str.strip()` whitespace set (ASCII part): space, `\t`, `\n`,
`\r`, `\x0b`, `\x0c`. -/
def pyIsSpace (c : Char) : Bool :=
  c = ' ' || c = '\t' || c = '\n' || c = '\x0d' || c = '\x0b' || c = '\x0c'

/-- Python `s.lstrip()`. -/
def pyLStrip (s : String) : String :=
  ⟨s.data.dropWhile pyIsSpace⟩

/-- Python `s.strip()`. -/
def pyStrip (s : String) : String :=
  ⟨(s.data.dropWhile pyIsSpace).reverse.dropWhile pyIsSpace |>.reverse⟩

/-- Python `s.split("\n")` (keeps empty pieces). -/
def pySplitNl (s : String) : List String :=
  (s.data.splitOn '\n').map (fun cs => ⟨cs⟩)

/-- Python `s[j:]` where `j` may be negative (counts from the end,
clamped to the string). -/
def pyDropInt (s : String) (j : Int) : String :=
  let n : Int := s.length
  let start : Int := if j < 0 then max 0 (n + j) else min j n
  ⟨s.data.drop start.toNat⟩

/-- Python `s.startswith(pre)`. -/
def pyStartsWith (s pre : String) : Bool :=
  pre.data.isPrefixOf s.data

/-- Python `s[n:]` for a non-negative `n`. -/
def pyDrop (s : String) (n : Nat) : String :=
  ⟨s.data.drop n⟩

/-- Substring containment (`needle in hay` on Python strings). -/
def charsContains (needle : List Char) : List Char → Bool
  | [] => needle.isEmpty
  | c :: rest => needle.isPrefixOf (c :: rest) || charsContains needle rest

/-- Python `s.replace(pat, repl)` for a non-empty `pat` (also
`str.format` of a single placeholder); the fuel equals the input length
and never runs out for a non-empty pattern. -/
def pyReplaceAux (pat repl : List Char) : Nat → List Char → List Char
  | 0, s => s
  | _ + 1, [] => []
  | fuel + 1, c :: rest =>
    if pat.isPrefixOf (c :: rest) then
      repl ++ pyReplaceAux pat repl fuel ((c :: rest).drop pat.length)
    else c :: pyReplaceAux pat repl fuel rest

def pyReplace (s pat repl : String) : String :=
  ⟨pyReplaceAux pat.data repl.data s.length s.data⟩

/-! ## JSON values

`json` module model.  Numbers keep their raw lexeme: no embedded claim
inspects numeric values, only presence and truthiness. -/

inductive Json where
  | null
  | bool (b : Bool)
  | num (raw : String)
  | str (s : String)
  | arr (items : List Json)
  | obj (members : List (String × Json))
  deriving Repr

namespace Json

/-- Key lookup in an object (Python `d[k]` / `d.get(k)`); keys are unique
because the parser replaces duplicates in place, as `dict` does. -/
def lookup (k : String) : Json → Option Json
  | .obj members => members.lookup k
  | _ => none

/-- Python `d.get(k, default)`. -/
def getD (j : Json) (k : String) (d : Json) : Json :=
  (j.lookup k).getD d

/-- Python truthiness of a decoded JSON value (`bool(x)`). A number is
falsy iff its mantissa digits are all zero. -/
def truthy : Json → Bool
  | .null => false
  | .bool b => b
  | .num raw =>
    let mantissa := raw.data.takeWhile (fun c => c ≠ 'e' ∧ c ≠ 'E')
    ¬ (mantissa.filter Char.isDigit).all (· = '0')
  | .str s => s ≠ ""
  | .arr items => ¬ items.isEmpty
  | .obj members => ¬ members.isEmpty

/-- `dict[k] = v` on the member list built so far: replaces the value in
place if the key exists, else appends (CPython dict semantics). -/
def objInsert (members : List (String × Json)) (k : String) (v : Json) :
    List (String × Json) :=
  if members.any (fun m => m.1 = k) then
    members.map (fun m => if m.1 = k then (k, v) else m)
  else
    members ++ [(k, v)]

end Json

/-! ### `json.loads`

A recursive-descent JSON parser over the character list, with explicit
fuel for termination; `jsonLoads` supplies ample fuel and requires the
whole input to be consumed (as `json.loads` does). -/

namespace JParse

def skipWs (cs : List Char) : List Char :=
  cs.dropWhile (fun c => c = ' ' || c = '\t' || c = '\n' || c = '\x0d')

def hexVal (c : Char) : Option Nat :=
  if '0' ≤ c ∧ c ≤ '9' then some (c.toNat - '0'.toNat)
  else if 'a' ≤ c ∧ c ≤ 'f' then some (c.toNat - 'a'.toNat + 10)
  else if 'A' ≤ c ∧ c ≤ 'F' then some (c.toNat - 'A'.toNat + 10)
  else none

/-- Parse the body of a string literal after the opening quote. -/
def parseStringBody : List Char → Option (List Char × List Char)
  | [] => none
  | '"' :: rest => some ([], rest)
  | '\\' :: e :: rest =>
    match e with
    | '"' => (parseStringBody rest).map (fun (s, r) => ('"' :: s, r))
    | '\\' => (parseStringBody rest).map (fun (s, r) => ('\\' :: s, r))
    | '/' => (parseStringBody rest).map (fun (s, r) => ('/' :: s, r))
    | 'b' => (parseStringBody rest).map (fun (s, r) => ('\x08' :: s, r))
    | 'f' => (parseStringBody rest).map (fun (s, r) => ('\x0c' :: s, r))
    | 'n' => (parseStringBody rest).map (fun (s, r) => ('\n' :: s, r))
    | 'r' => (parseStringBody rest).map (fun (s, r) => ('\x0d' :: s, r))
    | 't' => (parseStringBody rest).map (fun (s, r) => ('\t' :: s, r))
    | 'u' =>
      match rest with
      | a :: b :: c :: d :: rest' =>
        match hexVal a, hexVal b, hexVal c, hexVal d with
        | some x, some y, some z, some w =>
          let code := ((x * 16 + y) * 16 + z) * 16 + w
          (parseStringBody rest').map
            (fun (s, r) => ((Char.ofNat code) :: s, r))
        | _, _, _, _ => none
      | _ => none
    | _ => none
  | c :: rest =>
    if c = '"' ∨ c = '\\' then none
    else (parseStringBody rest).map (fun (s, r) => (c :: s, r))

/-- Lex a JSON number, returning its raw lexeme. -/
def lexNumber (cs : List Char) : Option (List Char × List Char) :=
  let (sign, cs₁) := match cs with
    | '-' :: rest => (['-'], rest)
    | _ => (([] : List Char), cs)
  let intPart := cs₁.takeWhile Char.isDigit
  if intPart.isEmpty then none else
  let cs₂ := cs₁.drop intPart.length
  let (fracPart, cs₃) := match cs₂ with
    | '.' :: rest =>
      let ds := rest.takeWhile Char.isDigit
      if ds.isEmpty then (([] : List Char), cs₂)
      else ('.' :: ds, rest.drop ds.length)
    | _ => (([] : List Char), cs₂)
  let (expPart, cs₄) := match cs₃ with
    | e :: rest =>
      if e = 'e' ∨ e = 'E' then
        let (es, rest') := match rest with
          | s :: r => if s = '+' ∨ s = '-' then ([s], r) else (([] : List Char), rest)
          | [] => (([] : List Char), rest)
        let ds := rest'.takeWhile Char.isDigit
        if ds.isEmpty then (([] : List Char), cs₃)
        else (e :: es ++ ds, rest'.drop ds.length)
      else (([] : List Char), cs₃)
    | [] => (([] : List Char), cs₃)
  some (sign ++ intPart ++ fracPart ++ expPart, cs₄)

/-- Parsing-loop mode: a value, the items of an array after `[`, or the
members of an object after `{` (single function so the recursion is
structural on the fuel and kernel-reducible). -/
inductive PMode where
  | value
  | arrItems (acc : List Json)
  | objItems (acc : List (String × Json))

/-- Parsing-loop result, tagged by the mode that produced it. -/
inductive PResult where
  | value (v : Json) (rest : List Char)
  | arrDone (items : List Json) (rest : List Char)
  | objDone (ms : List (String × Json)) (rest : List Char)

def parseRun : Nat → PMode → List Char → Option PResult
  | 0, _, _ => none
  | fuel + 1, .value, cs =>
    match skipWs cs with
    | 'n' :: 'u' :: 'l' :: 'l' :: rest => some (.value .null rest)
    | 't' :: 'r' :: 'u' :: 'e' :: rest => some (.value (.bool true) rest)
    | 'f' :: 'a' :: 'l' :: 's' :: 'e' :: rest => some (.value (.bool false) rest)
    | '"' :: rest =>
      (parseStringBody rest).map (fun (s, r) => .value (.str ⟨s⟩) r)
    | '[' :: rest =>
      (match skipWs rest with
       | ']' :: rest' => some (.value (.arr []) rest')
       | _ =>
         match parseRun fuel (.arrItems []) rest with
         | some (.arrDone items r) => some (.value (.arr items) r)
         | _ => none)
    | '{' :: rest =>
      (match skipWs rest with
       | '}' :: rest' => some (.value (.obj []) rest')
       | _ =>
         match parseRun fuel (.objItems []) rest with
         | some (.objDone ms r) => some (.value (.obj ms) r)
         | _ => none)
    | cs' => (lexNumber cs').map (fun (raw, r) => .value (.num ⟨raw⟩) r)
  | fuel + 1, .arrItems acc, cs =>
    match parseRun fuel .value cs with
    | some (.value v rest) =>
      (match skipWs rest with
       | ',' :: rest' => parseRun fuel (.arrItems (acc ++ [v])) rest'
       | ']' :: rest' => some (.arrDone (acc ++ [v]) rest')
       | _ => none)
    | _ => none
  | fuel + 1, .objItems acc, cs =>
    match skipWs cs with
    | '"' :: rest =>
      (match parseStringBody rest with
       | none => none
       | some (k, rest') =>
         match skipWs rest' with
         | ':' :: rest'' =>
           (match parseRun fuel .value rest'' with
            | some (.value v rest''') =>
              let acc' := Json.objInsert acc ⟨k⟩ v
              (match skipWs rest''' with
               | ',' :: r => parseRun fuel (.objItems acc') r
               | '}' :: r => some (.objDone acc' r)
               | _ => none)
            | _ => none)
         | _ => none)
    | _ => none

end JParse

/-- `json.loads`: parse one JSON document; fails unless the entire input
(up to trailing whitespace) is consumed.  The fuel bounds the recursion
depth of the loop, which never exceeds the input length plus two. -/
def jsonLoads (s : String) : Option Json :=
  match JParse.parseRun (2 * s.length + 4) .value s.data with
  | some (.value v rest) =>
    if (JParse.skipWs rest).isEmpty then some v else none
  | _ => none

/-- Python `k in j` for a decoded JSON value: key membership for a dict,
element equality for a list, substring test for a string; `none` models
the `TypeError` raised for non-iterable values. -/
def pyIn (k : String) : Json → Option Bool
  | .obj ms => some (ms.any (fun m => m.1 = k))
  | .arr items => some (items.any (fun it => match it with
      | .str s => s = k
      | _ => false))
  | .str s => some (charsContains k.data s.data)
  | _ => none

/-! ## Gemini streaming normalizer

`GeminiProvider.gemini_stream_response`
(`src/openwebui_service/providers/gemini.py`, lines 284-443; the same
function appears verbatim in `src/openwebui_service/llm_proxy.py`).

The fixed fields of every emitted SSE payload (`id`, `object`,
`created`, `model`) are constants of the stream, so an emitted
`data: {json.dumps(payload)}\n\n` line is represented by its varying
content. -/

/-- One unit emitted by the Gemini (or Claude) stream normalizer. -/
inductive GEvent where
  | delta (content : String)
  | finish (reason : String)
  | done
  | errorEvt (msg : String)
  deriving DecidableEq, Repr

/-- The Gemini `finishReason` → OpenAI `finish_reason` table
(`finish_reason_map`, gemini.py lines 386-392). -/
def finish_reason_map : List (String × String) :=
  [("STOP", "stop"), ("MAX_TOKENS", "length"), ("SAFETY", "content_filter"),
   ("RECITATION", "content_filter"), ("OTHER", "stop")]

/-- The `for part in parts` delta loop (gemini.py lines 350-362): returns
`(delta_text, text_accum, ok)`; `ok = false` models an exception escaping
the loop (swallowed by the enclosing `except`), with the accumulator
mutations made so far retained. -/
def gemini_parts_fold : List Json → String → String → String × String × Bool
  | [], delta, accum => (delta, accum, true)
  | part :: rest, delta, accum =>
    match pyIn "text" part with
    | none => (delta, accum, false)
    | some false => gemini_parts_fold rest delta accum
    | some true =>
      match part with
      | .obj ms =>
        match ms.lookup "text" with
        | some (.str full) =>
          if pyStartsWith full accum then
            gemini_parts_fold rest (pyDrop full accum.length) full
          else
            gemini_parts_fold rest full (accum ++ full)
        | _ => (delta, accum, false)
      | _ => (delta, accum, false)

/-- Conversion of one complete decoded Gemini response object into emitted
chunks (gemini.py lines 336-414, the body of the `try` after
`json.loads`): returns `(events, text_accum, halted)`; `halted` models the
`return` after a `finishReason` is emitted. Exceptions raised mid-way are
swallowed by the enclosing `except Exception: pass`, keeping any events
already yielded and accumulator mutations already made. -/
def convert_gemini_event (event_data : Json) (accum : String) :
    List GEvent × String × Bool :=
  match event_data.lookup "candidates" with
  | some (.arr (candidate :: _)) =>
    -- delta branch (lines 344-379)
    let deltaStep : List GEvent × String × Bool :=
      match pyIn "content" candidate with
      | none => ([], accum, false)
      | some false => ([], accum, true)
      | some true =>
        match candidate with
        | .obj ms =>
          match ms.lookup "content" with
          | some content =>
            match pyIn "parts" content with
            | none => ([], accum, false)
            | some false => ([], accum, true)
            | some true =>
              match content with
              | .obj cms =>
                match cms.lookup "parts" with
                | some (.arr parts) =>
                  match gemini_parts_fold parts "" accum with
                  | (delta, accum', true) =>
                    (if delta ≠ "" then [.delta delta] else [], accum', true)
                  | (_, accum', false) => ([], accum', false)
                | some (.str _) =>
                  -- iterating a string yields 1-char strings; none contains "text"
                  ([], accum, true)
                | some (.obj kvs) =>
                  -- iterating a dict yields its keys: a key containing "text"
                  -- is subscripted on the key string and raises; otherwise
                  -- every key is skipped and the loop completes with no delta
                  if kvs.any (fun kv => charsContains "text".data kv.1.data) then
                    ([], accum, false)
                  else ([], accum, true)
                | _ =>
                  -- iterating a number/bool/null raises `TypeError`
                  ([], accum, false)
              | _ => ([], accum, false)
          | none => ([], accum, false)
        | _ => ([], accum, false)
    match deltaStep with
    | (_, accum', false) => ([], accum', false)
    | (evts, accum', true) =>
      -- finish branch (lines 381-413)
      match pyIn "finishReason" candidate with
      | none => (evts, accum', false)
      | some false => (evts, accum', false)
      | some true =>
        match candidate with
        | .obj ms =>
          match ms.lookup "finishReason" with
          | some (.str g) =>
            let fr := ((finish_reason_map).lookup g).getD "stop"
            (evts ++ [.finish fr, .done], accum', true)
          | some (.num _) | some (.bool _) | some .null =>
            -- hashable non-string key: map lookup misses, default "stop"
            (evts ++ [.finish "stop", .done], accum', true)
          | _ => (evts, accum', false)
        | _ => (evts, accum', false)
  | _ => ([], accum, false)

/-- State of the character scanner inside `gemini_stream_response`
(gemini.py lines 300-302 and 317-420). -/
structure GemScanState where
  insideObj : Bool
  braceLevel : Nat
  objBuffer : String
  textAccum : String
  deriving Repr

/-- The `while i < len(buffer)` character scan (gemini.py lines 317-420):
threads the scanner state, appends emitted events, and reports whether the
generator `return`ed (after emitting a finish reason).  Brace depth is
counted on raw characters, exactly as the source does — braces inside JSON
strings are counted too. -/
def gemini_scan : List Char → GemScanState → List GEvent →
    GemScanState × List GEvent × Bool
  | [], st, evts => (st, evts, false)
  | c :: rest, st, evts =>
    if ¬ st.insideObj then
      if c = '{' then
        gemini_scan rest
          { st with insideObj := true, braceLevel := 1, objBuffer := "\x7b" } evts
      else
        gemini_scan rest st evts
    else
      let ob := st.objBuffer.push c
      if c = '{' then
        gemini_scan rest { st with objBuffer := ob, braceLevel := st.braceLevel + 1 } evts
      else if c = '}' then
        let lvl := st.braceLevel - 1
        if lvl = 0 then
          match jsonLoads ob with
          | none =>
            gemini_scan rest
              { st with insideObj := false, braceLevel := 0, objBuffer := "" } evts
          | some ev =>
            match convert_gemini_event ev st.textAccum with
            | (newEvts, accum', true) =>
              ({ st with textAccum := accum', insideObj := false, objBuffer := "" },
               evts ++ newEvts, true)
            | (newEvts, accum', false) =>
              gemini_scan rest
                { insideObj := false, braceLevel := 0, objBuffer := "",
                  textAccum := accum' } (evts ++ newEvts)
        else
          gemini_scan rest { st with objBuffer := ob, braceLevel := lvl } evts
      else
        gemini_scan rest { st with objBuffer := ob } evts

/-- Per-request state of the Gemini normalizer across chunk arrivals
(gemini.py lines 294-302). -/
structure GemState where
  buffer : String
  started : Bool
  scan : GemScanState
  deriving Repr

def GemState.initial : GemState :=
  { buffer := "", started := false,
    scan := { insideObj := false, braceLevel := 0, objBuffer := "", textAccum := "" } }

/-- One iteration of `async for chunk in response.aiter_text()` (gemini.py
lines 305-430): returns the new state, the events emitted for this chunk,
whether the generator `return`ed, and whether the `]`-check `break` fired. -/
def gemini_feed_chunk (st : GemState) (chunk : String) :
    GemState × List GEvent × Bool × Bool :=
  if pyStrip chunk = "" then (st, [], false, false)
  else
    let buffer₀ := st.buffer ++ chunk
    let (buffer₁, started) :=
      if ¬ st.started then
        let b := pyLStrip buffer₀
        if pyStartsWith b "[" then (pyDrop b 1, true) else (b, false)
      else (buffer₀, true)
    match gemini_scan buffer₁.data st.scan [] with
    | (scan', evts, true) =>
      ({ buffer := buffer₁, started := started, scan := scan' }, evts, true, false)
    | (scan', evts, false) =>
      -- `buffer = buffer[i:]` / `buffer = buffer[i - len(obj_buffer):]`
      -- with i = len(buffer); a negative start slices from the end
      let buffer₂ :=
        if scan'.insideObj then
          pyDropInt buffer₁ ((buffer₁.length : Int) - (scan'.objBuffer.length : Int))
        else ""
      let broke := pyStartsWith (pyStrip buffer₂) "]"
      ({ buffer := buffer₂, started := started, scan := scan' }, evts, false, broke)

/-- The full Gemini stream normalizer as a function from the list of
upstream text chunks to the emitted events (gemini.py lines 284-433).
The `except` branch at lines 434-442 is unreachable here: the loop body
raises no exception the source does not already swallow. -/
def gemini_stream_go : List String → GemState → List GEvent → List GEvent
  | [], _, evts => evts ++ [.done]
  | c :: cs, st, evts =>
    match gemini_feed_chunk st c with
    | (_, newEvts, true, _) => evts ++ newEvts
    | (_, newEvts, false, true) => evts ++ newEvts ++ [.done]
    | (st', newEvts, false, false) => gemini_stream_go cs st' (evts ++ newEvts)

def gemini_stream_response (chunks : List String) : List GEvent :=
  gemini_stream_go chunks GemState.initial []

/-! ## Python `str()` of decoded JSON values

Used where the source interpolates a decoded value into an f-string. -/

mutual

def pyRepr : Json → String
  | .null => "None"
  | .bool true => "True"
  | .bool false => "False"
  | .num raw => raw
  | .str s => "'" ++ s ++ "'"
  | .arr xs => "[" ++ pyReprList xs ++ "]"
  | .obj ms => "\x7b" ++ pyReprMembers ms ++ "\x7d"

def pyReprList : List Json → String
  | [] => ""
  | [x] => pyRepr x
  | x :: xs => pyRepr x ++ ", " ++ pyReprList xs

def pyReprMembers : List (String × Json) → String
  | [] => ""
  | [(k, v)] => "'" ++ k ++ "': " ++ pyRepr v
  | (k, v) :: ms => "'" ++ k ++ "': " ++ pyRepr v ++ ", " ++ pyReprMembers ms

end

/-- Python `str(x)` for a decoded JSON value. -/
def pyStr : Json → String
  | .str s => s
  | j => pyRepr j

/-! ## Claude streaming normalizer

`ClaudeProvider.claude_stream_response`
(`src/openwebui_service/providers/claude.py`, lines 158-262; duplicated
verbatim in `src/openwebui_service/llm_proxy.py` lines 653-751).
Events are represented as in the Gemini model; the finish chunk always
carries `finish_reason = "stop"`. -/

/-- Outcome of processing one SSE line inside the chunk loop: events and
keep going, events and `return`, or an uncaught exception (only
`json.JSONDecodeError` is caught inside the loop; anything else escapes
to the generator-level `except`). -/
inductive ClaudeLineOut where
  | emit (evts : List GEvent)
  | stop (evts : List GEvent)
  | raise
  deriving DecidableEq, Repr

/-- Processing of one line (claude.py lines 176-249). -/
def claude_process_line (line : String) : ClaudeLineOut :=
  if pyStartsWith line "data: " then
    -- data_part = line[6:]
    if pyDrop line 6 = "[DONE]" then .stop [.done]
    else
      match jsonLoads (pyDrop line 6) with
      | none => .emit []   -- JSONDecodeError: warn and continue
      | some event_data =>
        match event_data with
        | .obj ms =>
          match ms.lookup "type" with
          | some (.str "content_block_delta") =>
            match (ms.lookup "delta").getD (.obj []) with
            | .obj dms =>
              match (dms.lookup "text").getD (.str "") with
              | .str s => if s = "" then .emit [] else .emit [.delta s]
              | t =>
                -- falsy non-string: `if not delta_text: continue`;
                -- truthy non-string: `text_accum += delta_text` raises
                if t.truthy then .raise else .emit []
            | _ => .raise   -- `.get("text", ...)` on a non-dict raises
          | some (.str "message_stop") => .stop [.finish "stop", .done]
          | _ => .emit []   -- unknown event types are ignored
        | _ => .raise       -- `.get` on a non-dict raises
  else .emit []             -- non-data lines are skipped

/-- The SSE lines seen by the loop: blank chunks are skipped, the rest are
stripped and split on newlines (claude.py lines 170-176). -/
def claude_lines (chunks : List String) : List String :=
  ((chunks.filter (fun c => pyStrip c ≠ "")).map (fun c => pySplitNl (pyStrip c))).flatten

/-- Line-sequence driver: the generator-level `except` turns an uncaught
exception into one error payload plus `[DONE]` (claude.py lines 256-262);
input exhaustion yields the trailing `[DONE]` at line 254. -/
def claude_run_lines : List String → List GEvent
  | [] => [.done]
  | l :: ls =>
    match claude_process_line l with
    | .emit es => es ++ claude_run_lines ls
    | .stop es => es
    | .raise => [.errorEvt "Claude stream processing failed", .done]

/-- The Claude stream normalizer as a function from upstream chunks to
emitted events. -/
def claude_stream_response (chunks : List String) : List GEvent :=
  claude_run_lines (claude_lines chunks)

/-! ## Base provider: response formatting and OpenAI-style streaming

`BaseProvider.format_openai_response` and `BaseProvider.stream_response`
(`src/open_llm_router/providers/base.py`, lines 37-86 and 88-164; the same
functions appear in `src/openwebui_service/llm_proxy.py`).
`uuid.uuid4().hex[:29]` and `int(time.time())` are modelled by the
explicit parameters `freshId` and `now`. -/

/-- `BaseProvider.format_openai_response` (base.py lines 37-86).  The
pass-through test `all(key in response_data for key in [...])` is key
membership on the decoded dict. -/
def format_openai_response (freshId : String) (now : Int)
    (response_data : Json) (model : String) (backend_name : String) : Json :=
  if ["id", "object", "created", "model", "choices"].all
      (fun k => (pyIn k response_data).getD false) then
    response_data
  else
    let choices : Json :=
      match response_data.lookup "choices" with
      | some cs => cs
      | none =>
        match response_data.lookup "message" with
        | some msg =>
          .arr [.obj [("index", .num "0"), ("message", msg),
            ("finish_reason", response_data.getD "finish_reason" (.str "stop"))]]
        | none =>
          match response_data.lookup "content" with
          | some content =>
            .arr [.obj [("index", .num "0"),
              ("message", .obj [("role", .str "assistant"), ("content", content)]),
              ("finish_reason", .str "stop")]]
          | none => .arr []
    .obj [("id", response_data.getD "id" (.str freshId)),
      ("object", .str "chat.completion"),
      ("created", response_data.getD "created" (.num (toString now))),
      ("model", .str model),
      ("choices", choices),
      ("usage", response_data.getD "usage"
        (.obj [("prompt_tokens", .num "0"), ("completion_tokens", .num "0"),
               ("total_tokens", .num "0")])),
      ("system_fingerprint", .str (backend_name ++ "-proxy"))]

/-- One unit emitted by `BaseProvider.stream_response`: a payload line
(before `json.dumps`), the `[DONE]` sentinel, or the error payload of the
generator-level `except`. -/
inductive OEvent where
  | payload (j : Json)
  | done
  | errorEvt
  deriving Repr

/-- The payload built for a data line whose decoded dict lacks a
`choices` key (base.py lines 121-139): synthesizes the OpenAI streaming
chunk shape, defaulting the `id` to the freshly generated one. -/
def openai_synth_chunk (freshId : String) (now : Int) (chunk_dict : Json) : Json :=
  .obj [("id", chunk_dict.getD "id" (.str freshId)),
    ("object", .str "chat.completion.chunk"),
    ("created", chunk_dict.getD "created" (.num (toString now))),
    ("model", chunk_dict.getD "model" (.str "unknown")),
    ("choices", .arr [.obj [("index", .num "0"),
      ("delta", chunk_dict.getD "delta" (.obj [])),
      ("finish_reason", chunk_dict.getD "finish_reason" .null)]])]

/-- Processing of one stripped SSE line (base.py lines 101-149). -/
def openai_process_line (freshId : String) (now : Int) (line₀ : String) :
    ClaudeLineOut × List OEvent :=
  let line := pyStrip line₀
  if pyStartsWith line "data: " then
    let data_part := pyDrop line 6
    if data_part = "[DONE]" then (.stop [], [.done])
    else
      match jsonLoads data_part with
      | none => (.emit [], [])   -- JSONDecodeError: warn and continue
      | some chunk_dict =>
        match pyIn "choices" chunk_dict with
        | none => (.raise, [])
        | some true => (.emit [], [.payload chunk_dict])
        | some false =>
          match chunk_dict with
          | .obj _ =>
            (.emit [], [.payload (openai_synth_chunk freshId now chunk_dict)])
          | _ => (.raise, [])    -- `.get` on a non-dict raises
  else (.emit [], [])

/-- Line-sequence driver for `BaseProvider.stream_response` (base.py lines
93-164): `[DONE]` is terminal; an uncaught exception yields one error
payload plus `[DONE]`; input exhaustion yields the trailing `[DONE]`. -/
def openai_run_lines (freshId : String) (now : Int) : List String → List OEvent
  | [] => [.done]
  | l :: ls =>
    match openai_process_line freshId now l with
    | (.emit _, es) => es ++ openai_run_lines freshId now ls
    | (.stop _, es) => es
    | (.raise, _) => [.errorEvt, .done]

/-- The lines seen by the loop: empty chunks (`if chunk:`) are skipped,
the rest stripped and split on newlines (base.py lines 94-100). -/
def openai_stream_lines (chunks : List String) : List String :=
  ((chunks.filter (fun c => c ≠ "")).map (fun c => pySplitNl (pyStrip c))).flatten

/-- `BaseProvider.stream_response` as a function from upstream chunks to
emitted events. -/
def stream_response (freshId : String) (now : Int) (chunks : List String) :
    List OEvent :=
  openai_run_lines freshId now (openai_stream_lines chunks)

/-! ## Model router

`ModelRouter` (`src/open_llm_router/utils/model_router.py`); the same
logic appears as the free functions `get_backend_for_model`,
`get_api_key_for_backend` and `choose_backend` in
`src/openwebui_service/llm_proxy.py` lines 118-161 and 446-474.
The process environment is modelled as an association list. -/

/-- One backend entry of the normalized configuration. -/
structure Backend where
  name : Option String := none
  base_url : String := ""
  api_key_env : Option String := none
  headers_template : Option (List (String × String)) := none
  models : List String := []
  model_prefixes : List String := []
  deriving Repr, DecidableEq

/-- The normalized `backends_config` table (dicts keep insertion order). -/
structure RouterConfig where
  model_aliases : List (String × String) := []
  backends : List (String × Backend) := []
  deriving Repr

/-- The process environment; `os.getenv` is lookup (an empty-string value
is present but falsy, exactly as in Python). -/
def Env := List (String × String)

def osGetenv (env : Env) (k : String) : Option String :=
  List.lookup k env

/-- `if not x` on an optional string: keeps the value only when truthy. -/
def strTruthy : Option String → Option String
  | some s => if s = "" then none else some s
  | none => none

/-- The alias hop at the top of `get_backend_for_model` (model_router.py
lines 14-18): exactly one dictionary lookup, no chaining. -/
def resolve_alias (cfg : RouterConfig) (model : String) : String :=
  ((cfg.model_aliases).lookup model).getD model

/-- `ModelRouter.get_backend_for_model` (model_router.py lines 11-39):
single-hop alias lookup, then exact match over the backends in insertion
order, then prefix match in insertion order, else `HTTPException 400`. -/
def get_backend_for_model (cfg : RouterConfig) (model₀ : String) :
    Except (Nat × String) String :=
  match cfg.backends.find?
      (fun b => b.2.models.contains (resolve_alias cfg model₀)) with
  | some b => .ok b.1
  | none =>
    match cfg.backends.find? (fun b =>
        b.2.model_prefixes.any (fun p => pyStartsWith (resolve_alias cfg model₀) p)) with
    | some b => .ok b.1
    | none => .error (400, "Unknown model: " ++ resolve_alias cfg model₀)

/-- `ModelRouter.get_api_key_for_backend` (model_router.py lines 41-69):
`HTTPException 500` when the config declares no (truthy) `api_key_env`;
otherwise the environment value, falling back to the legacy table and
finally to `"default-<backend>-key"`. -/
def get_api_key_for_backend (env : Env) (backend_name : String)
    (backend_config : Backend) : Except (Nat × String) String :=
  match strTruthy backend_config.api_key_env with
  | none =>
    .error (500, "No API key environment variable configured for " ++ backend_name)
  | some api_key_env =>
    match strTruthy (osGetenv env api_key_env) with
    | some api_key => .ok api_key
    | none =>
      let legacy_keys : List (String × String) :=
        [("OPENAI_API_KEY", (osGetenv env "OPENAI_API_KEY").getD "sk-xxxx"),
         ("GROK_API_KEY", (osGetenv env "GROK_API_KEY").getD "gsk-xxxx"),
         ("CLAUDE_API_KEY", (osGetenv env "CLAUDE_API_KEY").getD "sk-ant-xxx"),
         ("GEMINI_API_KEY", (osGetenv env "GEMINI_API_KEY").getD "AIza...")]
      .ok ((legacy_keys.lookup api_key_env).getD
        ("default-" ++ backend_name ++ "-key"))

/-- The per-request resolved backend returned by `choose_backend`. -/
structure ChosenBackend where
  base_url : String
  api_key : String
  headers : List (String × String)
  backend_name : String
  deriving Repr

/-- `ModelRouter.choose_backend` (model_router.py lines 71-101). -/
def choose_backend (cfg : RouterConfig) (env : Env) (model : String) :
    Except (Nat × String) ChosenBackend := do
  let backend_name ← get_backend_for_model cfg model
  match cfg.backends.lookup backend_name with
  | none => .error (400, "Backend " ++ backend_name ++ " not found in configuration")
  | some backend_config => do
    let api_key ← get_api_key_for_backend env backend_name backend_config
    let headers_template := backend_config.headers_template.getD
      [("Authorization", "Bearer {api_key}")]
    let headers := headers_template.map (fun kv =>
      if charsContains "{api_key}".data kv.2.data then
        (kv.1, pyReplace kv.2 "{api_key}" api_key)
      else kv)
    .ok { base_url := backend_config.base_url, api_key := api_key,
          headers := headers, backend_name := backend_name }

/-! ## Message translation

`GeminiProvider.convert_openai_to_gemini_messages` (gemini.py lines 17-51)
and `ClaudeProvider.convert_openai_to_anthropic_messages` (claude.py lines
13-38).  An inbound message's `content` is a string; a missing or `None`
content behaves exactly like `""` here (all are falsy under
`not m.get("content")`), so it is modelled as `""`. -/

structure OAIMessage where
  role : String
  content : String
  deriving Repr, DecidableEq

/-- `convert_openai_to_gemini_messages`: drops content-less messages,
computes `gemini_role = "user" if role == "user" else "model"` (which the
source then never uses), drops `system` messages, and emits
`{"parts": [{"text": content}]}` — with no role key. -/
def convert_openai_to_gemini_messages : List OAIMessage → List Json
  | [] => []
  | m :: rest =>
    if m.content = "" then convert_openai_to_gemini_messages rest
    else
      -- gemini_role is computed here in the source and discarded
      if m.role = "system" then convert_openai_to_gemini_messages rest
      else
        .obj [("parts", .arr [.obj [("text", .str m.content)]])] ::
          convert_openai_to_gemini_messages rest

/-- `convert_openai_to_anthropic_messages`: drops content-less messages and
roles outside `{user, assistant}`. -/
def convert_openai_to_anthropic_messages : List OAIMessage → List Json
  | [] => []
  | m :: rest =>
    if m.content = "" then convert_openai_to_anthropic_messages rest
    else if m.role ≠ "user" ∧ m.role ≠ "assistant" then
      convert_openai_to_anthropic_messages rest
    else
      .obj [("role", .str m.role), ("content", .str m.content)] ::
        convert_openai_to_anthropic_messages rest

/-! ## Non-streaming response conversion -/

/-- `get_error_detail` (base.py lines 20-35): extracts a detail value from
a decoded non-2xx body.  The branch for an unparseable body (which embeds
the raw response text) is outside this model; no claim exercises it. -/
def get_error_detail (status : Nat) (body : Json) : Json :=
  match body with
  | .obj ms =>
    match ms.lookup "error" with
    | some (.obj ems) =>
      (ems.lookup "message").getD (.str ("Backend error: " ++ toString status))
    | some error_info => .str (pyStr error_info)
    | none => .str ("Backend error: " ++ toString status)
  | _ => .str ("Backend error: " ++ toString status)

/-- The text-block fold of `convert_claude_to_openai_response` (claude.py
lines 278-280); `none` models an exception, after which the `except` sets
`answer = ""`. -/
def claude_blocks_fold : List Json → String → Option String
  | [], answer => some answer
  | block :: rest, answer =>
    match block with
    | .obj bms =>
      match bms.lookup "type" with
      | some (.str "text") =>
        match (bms.lookup "text").getD (.str "") with
        | .str t => claude_blocks_fold rest (answer ++ t)
        | _ => none          -- `answer += non-str` raises
      | _ => claude_blocks_fold rest answer
    | _ => none              -- `.get` on a non-dict raises

/-- `convert_claude_to_openai_response` (claude.py lines 264-321). -/
def convert_claude_to_openai_response (resp_json : Json) (model : String)
    (openai_resp_id : String) (now : Int) : Json :=
  let answer : Json :=
    match resp_json.lookup "content" with
    | some (.arr blocks) =>
      if blocks.isEmpty then
        -- falsy content list: falls through to the completion / else arm
        match resp_json.lookup "completion" with
        | some c => c
        | none => .str ""
      else .str ((claude_blocks_fold blocks "").getD "")
    | some _ =>
      -- present but not a list: `isinstance` fails, fall through
      match resp_json.lookup "completion" with
      | some c => c
      | none => .str ""
    | none =>
      match resp_json.lookup "completion" with
      | some c => c
      | none => .str ""
  let stop_reason := resp_json.getD "stop_reason" (.str "stop")
  let finish_reason : Json :=
    match stop_reason with
    | .str "end_turn" => .str "stop"
    | other => other
  .obj [("id", .str openai_resp_id),
    ("object", .str "chat.completion"),
    ("created", .num (toString now)),
    ("model", .str model),
    ("choices", .arr [.obj [("index", .num "0"),
      ("message", .obj [("role", .str "assistant"), ("content", answer)]),
      ("finish_reason", finish_reason)]]),
    ("usage", resp_json.getD "usage" (.obj []))]

/-- The `parts` fold of `convert_gemini_to_openai_response` (gemini.py
lines 213-215): adds each truthy `part.get("text")`; `none` models an
exception, after which `answer = ""`. -/
def gemini_answer_fold : List Json → String → Option String
  | [], answer => some answer
  | part :: rest, answer =>
    match part with
    | .obj pms =>
      match pms.lookup "text" with
      | some (.str t) =>
        if t = "" then gemini_answer_fold rest answer
        else gemini_answer_fold rest (answer ++ t)
      | some v => if v.truthy then none else gemini_answer_fold rest answer
      | none => gemini_answer_fold rest answer
    | _ => none              -- `.get` on a non-dict raises

/-- `convert_gemini_to_openai_response` (gemini.py lines 197-282). -/
def convert_gemini_to_openai_response (resp_json : Json) (model : String)
    (openai_resp_id : String) (now : Int) : Json :=
  let answer : String :=
    match resp_json.lookup "candidates" with
    | some (.arr (candidate :: _)) =>
      match candidate with
      | .obj cms =>
        match cms.lookup "content" with
        | some (.obj cts) =>
          match cts.lookup "parts" with
          | some (.arr parts) => (gemini_answer_fold parts "").getD ""
          | some _ => ""     -- iterating a non-list: raises or adds nothing
          | none => ""
        | some _ => ""       -- `"parts" in non-dict`: raises → answer ""
        | none => ""
      | _ => ""              -- `"content" in candidate` raises on non-dict
    | _ => ""
  let finish_reason : String :=
    match resp_json.lookup "candidates" with
    | some (.arr (candidate :: _)) =>
      match candidate with
      | .obj cms =>
        match cms.lookup "finishReason" with
        | some (.str g) => ((finish_reason_map).lookup g).getD "stop"
        | some (.num _) | some (.bool _) | some .null => "stop"
        | _ => "stop"        -- unhashable key raises; except keeps default
      | _ => "stop"
    | _ => "stop"
  let usage : Json :=
    match resp_json.lookup "usageMetadata" with
    | some (.obj ums) =>
      .obj [("prompt_tokens", (ums.lookup "promptTokenCount").getD (.num "0")),
        ("completion_tokens", (ums.lookup "candidatesTokenCount").getD (.num "0")),
        ("total_tokens", (ums.lookup "totalTokenCount").getD (.num "0"))]
    | some _ =>
      -- `.get` on a non-dict raises; except keeps the zero default
      .obj [("prompt_tokens", .num "0"), ("completion_tokens", .num "0"),
        ("total_tokens", .num "0")]
    | none =>
      .obj [("prompt_tokens", .num "0"), ("completion_tokens", .num "0"),
        ("total_tokens", .num "0")]
  .obj [("id", .str openai_resp_id),
    ("object", .str "chat.completion"),
    ("created", .num (toString now)),
    ("model", .str model),
    ("choices", .arr [.obj [("index", .num "0"),
      ("message", .obj [("role", .str "assistant"), ("content", .str answer)]),
      ("finish_reason", .str finish_reason)]]),
    ("usage", usage)]

/-! ## Orchestrator and error classification

The non-streaming request paths of `ClaudeProvider.handle_request`
(claude.py lines 40-156), `GeminiProvider.handle_request` (gemini.py lines
53-195) and the OpenAI-compatible branch of `proxy_chat_completions`
(`src/openwebui_service/llm_proxy.py` lines 505-578).  The outcome of the
single upstream `httpx` call is modelled explicitly. -/

/-- Outcome of the upstream `client.post(...)` call. -/
inductive Upstream where
  | resp (status : Nat) (body : Json)
  | timeout
  | transportError (msg : String)
  deriving Repr

/-- `str()` of a `fastapi.HTTPException` (starlette formats it as
`f"{status_code}: {detail}"`). -/
def http_exc_str (status : Nat) (detail : Json) : String :=
  toString status ++ ": " ++ pyStr detail

/-- A response returned to the client: HTTP status plus JSON body. -/
structure ClientResp where
  status : Nat
  body : Json
  deriving Repr

/-- The `try` body around the upstream call in
`ClaudeProvider.handle_request`, non-streaming (claude.py lines 86-146):
classifies `httpx.TimeoutException` as 504 and `httpx.RequestError` as
502, converts a non-200 into a passthrough-status `HTTPException`, and a
200 into the converted OpenAI-shaped body. -/
def claude_request_inner (model : String) (openai_resp_id : String)
    (now : Int) (u : Upstream) : Except (Nat × Json) ClientResp :=
  match u with
  | .timeout => .error (504, .str "Request timeout to Claude")
  | .transportError e => .error (502, .str ("Claude request failed: " ++ e))
  | .resp status body =>
    if status ≠ 200 then .error (status, get_error_detail status body)
    else .ok ⟨200, convert_claude_to_openai_response body model openai_resp_id now⟩

/-- `ClaudeProvider.handle_request`, non-streaming (claude.py lines
40-156): the function-level `except Exception` at line 148 catches every
`HTTPException` raised inside — including the 504/502 just classified —
and turns it into a 500 JSON error body. -/
def claude_handle_request (model : String) (openai_resp_id : String)
    (now : Int) (u : Upstream) : ClientResp :=
  match claude_request_inner model openai_resp_id now u with
  | .ok r => r
  | .error (status, detail) =>
    ⟨500, .obj [("error",
      .str ("Claude model processing failed: " ++ http_exc_str status detail))]⟩

/-- The `try` body around the upstream call in
`GeminiProvider.handle_request`, non-streaming (gemini.py lines 125-185). -/
def gemini_request_inner (model : String) (openai_resp_id : String)
    (now : Int) (u : Upstream) : Except (Nat × Json) ClientResp :=
  match u with
  | .timeout => .error (504, .str "Request timeout to Gemini")
  | .transportError e => .error (502, .str ("Gemini request failed: " ++ e))
  | .resp status body =>
    if status ≠ 200 then .error (status, get_error_detail status body)
    else .ok ⟨200, convert_gemini_to_openai_response body model openai_resp_id now⟩

/-- `GeminiProvider.handle_request`, non-streaming (gemini.py lines
53-195): as for Claude, the `except Exception` at line 187 swallows the
classified `HTTPException` into a 500 JSON error body. -/
def gemini_handle_request (model : String) (openai_resp_id : String)
    (now : Int) (u : Upstream) : ClientResp :=
  match gemini_request_inner model openai_resp_id now u with
  | .ok r => r
  | .error (status, detail) =>
    ⟨500, .obj [("error",
      .str ("Gemini model processing failed: " ++ http_exc_str status detail))]⟩

/-- The OpenAI-compatible non-streaming branch of `proxy_chat_completions`
(llm_proxy.py lines 506-570): same classification, but here the raised
`HTTPException` propagates to the endpoint-level `except HTTPException:
raise` (line 572) and so reaches the client with its own status. -/
def openai_compat_request (freshId : String) (now : Int) (model : String)
    (backend_name : String) (u : Upstream) : Except (Nat × Json) ClientResp :=
  match u with
  | .timeout => .error (504, .str ("Request timeout to " ++ backend_name))
  | .transportError e => .error (502, .str ("Backend request failed: " ++ e))
  | .resp status body =>
    if status ≠ 200 then .error (status, get_error_detail status body)
    else .ok ⟨200, format_openai_response freshId now body model backend_name⟩

/-! ### Request dispatch

The validation/routing prefix of `proxy_chat_completions`
(llm_proxy.py lines 477-503). -/

/-- The fields of the inbound request body that dispatch reads.  A missing
`messages` field behaves exactly like `[]` under `not body.get("messages")`
and is modelled as `[]`. -/
structure ProxyBody where
  model : Option String := none
  messages : List OAIMessage := []
  stream : Bool := false
  deriving Repr

/-- Which handler the endpoint dispatches to. -/
inductive Handler where
  | claude
  | gemini
  | openaiCompat
  deriving DecidableEq, Repr

/-- Dispatch of `proxy_chat_completions` (llm_proxy.py lines 480-503):
read `model` with default `"gpt-3.5-turbo"`, reject empty/missing
`messages` with 400, resolve the backend, then branch on the backend
name. -/
def proxy_dispatch (cfg : RouterConfig) (env : Env) (body : ProxyBody) :
    Except (Nat × String) (ChosenBackend × Handler) :=
  let model := body.model.getD "gpt-3.5-turbo"
  if body.messages.isEmpty then
    .error (400, "Missing required field: messages")
  else do
    let backend ← choose_backend cfg env model
    let handler : Handler :=
      if backend.backend_name = "claude" then .claude
      else if backend.backend_name = "gemini" then .gemini
      else .openaiCompat
    .ok (backend, handler)

/-! ## Fixtures

Concrete values used to instantiate the theorems below. -/

/-- A Gemini response object carrying a single text part, as decoded by
`json.loads` inside the stream normalizer. -/
def gemini_text_event (t : String) : Json :=
  .obj [("candidates", .arr [.obj [("content",
    .obj [("parts", .arr [.obj [("text", .str t)]])])]])]

/-- A small registry in the normalized legacy shape produced by
`load_backends`. -/
def testOpenAIBackend : Backend :=
  { name := some "OpenAI",
    base_url := "https://api.openai.com/v1/chat/completions",
    api_key_env := some "OPENAI_API_KEY",
    headers_template := some [("Authorization", "Bearer {api_key}")],
    models := ["gpt-4", "gpt-3.5-turbo"],
    model_prefixes := ["gpt-"] }

def testClaudeBackend : Backend :=
  { name := some "Claude",
    base_url := "https://api.anthropic.com/v1/messages",
    api_key_env := some "CLAUDE_API_KEY",
    models := ["claude-3-opus"],
    model_prefixes := ["claude-"] }

def testGeminiBackend : Backend :=
  { name := some "Gemini",
    base_url := "https://generativelanguage.googleapis.com/v1beta",
    api_key_env := some "GEMINI_API_KEY",
    models := ["gemini-pro"],
    model_prefixes := ["gemini-"] }

def testCfg : RouterConfig :=
  { model_aliases := [("my-alias", "gpt-4")],
    backends := [("openai", testOpenAIBackend), ("claude", testClaudeBackend),
      ("gemini", testGeminiBackend)] }

/-- The serialized Gemini streaming body `[ {r1} ]` with candidate text
`"Hi"`, fed to the normalizer in the theorems below. -/
def geminiBodyHi : String :=
  "[\x7b\"candidates\":[\x7b\"content\":\x7b\"parts\":[\x7b\"text\":\"Hi\"\x7d]\x7d\x7d]\x7d]"

/-- First piece of `geminiBodyHi` split mid-object (inside the innermost
part object, right after the closing quote of `"Hi"`). -/
def geminiBodyHiSplitA : String :=
  "[\x7b\"candidates\":[\x7b\"content\":\x7b\"parts\":[\x7b\"text\":\"Hi\""

/-- Second piece of `geminiBodyHi`. -/
def geminiBodyHiSplitB : String :=
  "\x7d]\x7d\x7d]\x7d]"

/-! # Theorems -/

/-- C1: the spec asserts chunk-boundary independence of the Gemini stream
normalizer, but the code violates it: after a chunk ends inside an object,
the retained buffer still contains the partial object while `obj_buffer`
keeps it too, so the next iteration re-appends those characters and
inflates the brace depth — the split object is never completed.  Feeding
`[ {r1} ]` whole emits the delta `"Hi"`; feeding the same bytes split
mid-object emits nothing but the terminal `[DONE]`. -/
theorem C1_gemini_chunk_boundary_dependence :
    geminiBodyHiSplitA ++ geminiBodyHiSplitB = geminiBodyHi ∧
    gemini_stream_response [geminiBodyHi] = [.delta "Hi", .done] ∧
    gemini_stream_response [geminiBodyHiSplitA, geminiBodyHiSplitB] = [.done] ∧
    gemini_stream_response [geminiBodyHi] ≠
      gemini_stream_response [geminiBodyHiSplitA, geminiBodyHiSplitB] := by
  refine ⟨rfl, ?_, ?_, ?_⟩ <;> decide

/-- C3: the spec says upstream timeout surfaces as 504 and transport
failure as 502 for every adapter.  That holds on the OpenAI-compatible
path, whose raised `HTTPException` is re-raised by the endpoint's
`except HTTPException`, but the Claude and Gemini handlers catch their own
just-raised 504/502 in the function-level `except Exception` and return a
500 JSON error instead. -/
theorem C3_timeout_misclassified_as_500 :
    claude_handle_request "claude-3-opus" "chatcmpl-x" 0 .timeout =
      ⟨500, .obj [("error",
        .str "Claude model processing failed: 504: Request timeout to Claude")]⟩ ∧
    claude_handle_request "claude-3-opus" "chatcmpl-x" 0 (.transportError "conn reset") =
      ⟨500, .obj [("error",
        .str "Claude model processing failed: 502: Claude request failed: conn reset")]⟩ ∧
    gemini_handle_request "gemini-pro" "chatcmpl-x" 0 .timeout =
      ⟨500, .obj [("error",
        .str "Gemini model processing failed: 504: Request timeout to Gemini")]⟩ ∧
    gemini_handle_request "gemini-pro" "chatcmpl-x" 0 (.transportError "conn reset") =
      ⟨500, .obj [("error",
        .str "Gemini model processing failed: 502: Gemini request failed: conn reset")]⟩ ∧
    openai_compat_request "chatcmpl-x" 0 "gpt-4" "openai" .timeout =
      .error (504, .str "Request timeout to openai") ∧
    openai_compat_request "chatcmpl-x" 0 "gpt-4" "openai" (.transportError "conn reset") =
      .error (502, .str "Backend request failed: conn reset") := by
  refine ⟨rfl, rfl, rfl, rfl, rfl, rfl⟩

/-- C6 counterexample: a descriptor that declares a credential-env name
(`MY_KEY`) with no value in an empty environment and no legacy fallback
entry does not fail — resolution returns the built-in
`"default-<backend>-key"` credential. -/
theorem C6_counterexample_fallback_key :
    get_api_key_for_backend [] "mybackend" { api_key_env := some "MY_KEY" } =
      .ok "default-mybackend-key" ∧
    ∀ e, get_api_key_for_backend [] "mybackend" { api_key_env := some "MY_KEY" } ≠
      .error e := by
  refine ⟨rfl, ?_⟩
  intro e h
  simp [get_api_key_for_backend, strTruthy, osGetenv] at h

/-- C7 counterexample: an `assistant` message is mapped to an entry that
contains only `parts` — no `role` key at all, hence no `model` role. -/
theorem C7_counterexample_no_role_key :
    convert_openai_to_gemini_messages [⟨"assistant", "hi"⟩] =
      [.obj [("parts", .arr [.obj [("text", .str "hi")]])]] ∧
    Json.lookup "role" (.obj [("parts", .arr [.obj [("text", .str "hi")]])]) = none := by
  exact ⟨rfl, rfl⟩

/-- C8 counterexample: a stream chunk that already carries a `choices` key
is passed through unchanged, so an upstream chunk with no `id` at all is
emitted to the client without one. -/
theorem C8_counterexample_passthrough_without_id :
    stream_response "chatcmpl-fresh" 0 ["data: \x7b\"choices\":[]\x7d"] =
      [.payload (.obj [("choices", .arr [])]), .done] ∧
    Json.lookup "id" (.obj [("choices", .arr [])]) = none := by
  exact ⟨rfl, rfl⟩

set_option maxRecDepth 8192 in
/-- C2: the Gemini delta computation.  Concretely, cumulative candidate
texts `"Hello"` then `"Hello, world"` produce the deltas `"Hello"` and
`", world"`; in general, for a single-part candidate the conversion emits
only the suffix when the new full text extends the accumulator (updating
the accumulator to the full text), and otherwise emits the whole new text
and appends it to the accumulator. -/
theorem C2_gemini_delta_computation :
    gemini_stream_response
        ["[\x7b\"candidates\":[\x7b\"content\":\x7b\"parts\":[\x7b\"text\":\"Hello\"\x7d]\x7d\x7d]\x7d",
         ",\x7b\"candidates\":[\x7b\"content\":\x7b\"parts\":[\x7b\"text\":\"Hello, world\"\x7d]\x7d\x7d]\x7d]"] =
      [.delta "Hello", .delta ", world", .done] ∧
    (∀ accum full : String, pyStartsWith full accum = true →
      convert_gemini_event (gemini_text_event full) accum =
        ((if pyDrop full accum.length = "" then []
          else [.delta (pyDrop full accum.length)]), full, false)) ∧
    (∀ accum full : String, pyStartsWith full accum = false →
      convert_gemini_event (gemini_text_event full) accum =
        ((if full = "" then [] else [.delta full]), accum ++ full, false)) := by
  refine ⟨by decide, ?_, ?_⟩ <;> intro accum full h <;>
    simp [convert_gemini_event, gemini_text_event, pyIn, gemini_parts_fold,
      Json.lookup, List.lookup, h]

/-- C2 witness: the extending case instantiated at `"Hello"` /
`"Hello, world"`. -/
theorem C2_gemini_delta_computation_witness :
    convert_gemini_event (gemini_text_event "Hello, world") "Hello" =
      ([.delta ", world"], "Hello, world", false) := by
  have h := (C2_gemini_delta_computation).2.1 "Hello" "Hello, world" (by decide)
  simpa using h

/-- Every line processed by the Claude stream loop yields one of five
shapes: nothing, one delta, `[DONE]` alone, the finish chunk plus
`[DONE]`, or an uncaught exception. -/
theorem claude_process_line_cases (l : String) :
    claude_process_line l = .emit [] ∨
    (∃ s, claude_process_line l = .emit [.delta s]) ∨
    claude_process_line l = .stop [.done] ∨
    claude_process_line l = .stop [.finish "stop", .done] ∨
    claude_process_line l = .raise := by
  unfold claude_process_line
  repeat' split
  all_goals simp

/-- The Claude line driver always emits exactly one `[DONE]`, as the last
event. -/
theorem claude_run_lines_one_done (ls : List String) :
    ∃ pre, claude_run_lines ls = pre ++ [.done] ∧ GEvent.done ∉ pre := by
  induction ls with
  | nil => exact ⟨[], rfl, by simp⟩
  | cons l ls ih =>
    obtain ⟨pre, hpre, hmem⟩ := ih
    rcases claude_process_line_cases l with h | ⟨s, h⟩ | h | h | h <;>
      simp only [claude_run_lines, h]
    · exact ⟨pre, by simp [hpre], hmem⟩
    · exact ⟨.delta s :: pre, by simp [hpre], by simp [hmem]⟩
    · exact ⟨[], rfl, by simp⟩
    · exact ⟨[.finish "stop"], rfl, by simp⟩
    · exact ⟨[.errorEvt "Claude stream processing failed"], rfl, by simp⟩

/-- C5: the Claude normalizer's terminal guarantee.  For every upstream
chunk sequence the output ends with `[DONE]` and contains no other
`[DONE]` (the uncaught-exception path likewise contributes exactly one);
a stream ending in `message_stop` yields the finish chunk
(`finish_reason = "stop"`, empty delta) immediately followed by the single
`[DONE]`. -/
theorem C5_claude_terminal_guarantee :
    (∀ chunks : List String, ∃ pre,
        claude_stream_response chunks = pre ++ [.done] ∧ GEvent.done ∉ pre) ∧
    claude_stream_response
        ["data: \x7b\"type\":\"content_block_delta\",\"delta\":\x7b\"text\":\"Hi\"\x7d\x7d\n\ndata: \x7b\"type\":\"message_stop\"\x7d"] =
      [.delta "Hi", .finish "stop", .done] := by
  exact ⟨fun chunks => claude_run_lines_one_done _, by decide⟩

/-- C6 amended: credential resolution fails (HTTP 500, "No API key
environment variable configured for …") exactly when the descriptor
declares no truthy credential-env name; when a declared env name has no
value in the environment, resolution does not fail — a fallback is always
available (the legacy default for the four known names, else
`"default-<backend>-key"`). -/
theorem C6_amended_credential_fallback (env : Env) (backend_name : String)
    (backend_config : Backend) :
    ((∃ e, get_api_key_for_backend env backend_name backend_config = .error e) ↔
      strTruthy backend_config.api_key_env = none) ∧
    (strTruthy backend_config.api_key_env = none →
      get_api_key_for_backend env backend_name backend_config =
        .error (500, "No API key environment variable configured for " ++ backend_name)) ∧
    (∀ k, strTruthy backend_config.api_key_env = some k →
      strTruthy (osGetenv env k) = none →
      get_api_key_for_backend env backend_name backend_config =
        .ok ((([("OPENAI_API_KEY", (osGetenv env "OPENAI_API_KEY").getD "sk-xxxx"),
            ("GROK_API_KEY", (osGetenv env "GROK_API_KEY").getD "gsk-xxxx"),
            ("CLAUDE_API_KEY", (osGetenv env "CLAUDE_API_KEY").getD "sk-ant-xxx"),
            ("GEMINI_API_KEY", (osGetenv env "GEMINI_API_KEY").getD "AIza...")] :
              List (String × String)).lookup k).getD
          ("default-" ++ backend_name ++ "-key"))) := by
  refine ⟨⟨?_, ?_⟩, ?_, ?_⟩
  · rintro ⟨e, he⟩
    unfold get_api_key_for_backend at he
    rcases hk : strTruthy backend_config.api_key_env with _ | k
    · rfl
    · rw [hk] at he
      rcases hv : strTruthy (osGetenv env k) with _ | v <;> simp [hv] at he
  · intro hk
    exact ⟨_, by unfold get_api_key_for_backend; rw [hk]⟩
  · intro hk
    unfold get_api_key_for_backend
    rw [hk]
  · intro k hk hv
    unfold get_api_key_for_backend
    rw [hk]
    simp only [hv]

/-- C6 amended, witness: a descriptor with no declared credential-env name
fails with the 500 error. -/
theorem C6_amended_credential_fallback_witness :
    get_api_key_for_backend [] "b" { api_key_env := none } =
      .error (500, "No API key environment variable configured for " ++ "b") :=
  (C6_amended_credential_fallback [] "b" { api_key_env := none }).2.1 rfl

/-- C7 amended: the Gemini request translation maps each retained message
(non-empty content, role other than `system`) to a `contents` entry whose
text sits under `parts[].text`; the `assistant`→`model` role conversion is
computed by the source but discarded — the produced entry carries no role
key at all. -/
theorem C7_amended_parts_only (msgs : List OAIMessage) :
    convert_openai_to_gemini_messages msgs =
      (msgs.filter (fun m => !(m.content == "") && !(m.role == "system"))).map
        (fun m => .obj [("parts", .arr [.obj [("text", .str m.content)]])]) ∧
    (∀ j ∈ convert_openai_to_gemini_messages msgs, Json.lookup "role" j = none) := by
  constructor
  · induction msgs with
    | nil => rfl
    | cons m rest ih =>
      by_cases hc : m.content = "" <;> by_cases hr : m.role = "system" <;>
        simp [convert_openai_to_gemini_messages, hc, hr, ih]
  · induction msgs with
    | nil => intro j hj; simp [convert_openai_to_gemini_messages] at hj
    | cons m rest ih =>
      intro j hj
      by_cases hc : m.content = "" <;> by_cases hr : m.role = "system" <;>
        simp [convert_openai_to_gemini_messages, hc, hr] at hj <;>
        first
          | exact ih j hj
          | (rcases hj with hj | hj
             · subst hj; rfl
             · exact ih j hj)

/-- C8 amended: every response or stream chunk the gateway itself
synthesizes carries an `id` — the upstream one when present, else the
freshly generated (non-empty) identifier; payloads that already look
OpenAI-shaped (a `choices` key for stream chunks, all five keys for
responses) are passed through unchanged and may therefore lack an id. -/
theorem C8_amended_id_synthesis (freshId : String) (now : Int)
    (h : freshId ≠ "") :
    (∀ ms : List (String × Json), List.lookup "id" ms = none →
      Json.lookup "id" (openai_synth_chunk freshId now (.obj ms)) =
        some (.str freshId) ∧ (.str freshId : Json).truthy = true) ∧
    (∀ (ms : List (String × Json)) (v : Json), List.lookup "id" ms = some v →
      Json.lookup "id" (openai_synth_chunk freshId now (.obj ms)) = some v) ∧
    (∀ (rd : Json) (model backend_name : String),
      (["id", "object", "created", "model", "choices"].all
        (fun k => (pyIn k rd).getD false)) = true →
      format_openai_response freshId now rd model backend_name = rd) ∧
    (∀ (ms : List (String × Json)) (model backend_name : String),
      (["id", "object", "created", "model", "choices"].all
        (fun k => (pyIn k (.obj ms)).getD false)) = false →
      List.lookup "id" ms = none →
      Json.lookup "id" (format_openai_response freshId now (.obj ms) model backend_name) =
        some (.str freshId)) := by
  refine ⟨?_, ?_, ?_, ?_⟩
  · intro ms hms
    simp [openai_synth_chunk, Json.lookup, Json.getD, hms, Json.truthy, h]
  · intro ms v hms
    simp [openai_synth_chunk, Json.lookup, Json.getD, hms]
  · intro rd model backend_name hall
    simp [format_openai_response, hall]
  · intro ms model backend_name hall hms
    simp [format_openai_response, hall, Json.lookup, Json.getD, hms]

/-- C8 amended, witness: a delta-only chunk with no upstream id receives
the fresh identifier. -/
theorem C8_amended_id_synthesis_witness :
    Json.lookup "id" (openai_synth_chunk "chatcmpl-x" 0 (.obj [("delta", .obj [])])) =
      some (.str "chatcmpl-x") ∧ (.str "chatcmpl-x" : Json).truthy = true :=
  ((C8_amended_id_synthesis "chatcmpl-x" 0 (by decide)).1 [("delta", .obj [])] rfl)

/-- C9: model resolution is deterministic and idempotent — two resolutions
of the same model against the same registry snapshot agree. -/
theorem C9_resolution_deterministic (cfg : RouterConfig) (model : String)
    (r₁ r₂ : Except (Nat × String) String)
    (h₁ : r₁ = get_backend_for_model cfg model)
    (h₂ : r₂ = get_backend_for_model cfg model) : r₁ = r₂ :=
  h₁.trans h₂.symm

/-- C9 witness: two concrete resolutions of `"gpt-4"` agree. -/
theorem C9_resolution_deterministic_witness :
    (Except.ok "openai" : Except (Nat × String) String) = .ok "openai" :=
  C9_resolution_deterministic testCfg "gpt-4" (.ok "openai") (.ok "openai") rfl rfl

/-- C4: resolution order.  After the single alias hop, resolution scans
the registry in insertion order: an exact match yields the first backend
whose model list contains the model (every earlier backend misses); with
no exact match anywhere, a prefix match yields the first backend with a
matching prefix (every earlier backend has none); and the 400
`Unknown model` error occurs exactly when neither an exact nor a prefix
match exists anywhere in the registry. -/
theorem C4_resolution_order (cfg : RouterConfig) (model : String) :
    ((∃ p ∈ cfg.backends, resolve_alias cfg model ∈ p.2.models) →
      ∃ l₁ p l₂, cfg.backends = l₁ ++ p :: l₂ ∧
        resolve_alias cfg model ∈ p.2.models ∧
        (∀ q ∈ l₁, resolve_alias cfg model ∉ q.2.models) ∧
        get_backend_for_model cfg model = .ok p.1) ∧
    ((∀ p ∈ cfg.backends, resolve_alias cfg model ∉ p.2.models) →
      (∃ p ∈ cfg.backends, ∃ pre ∈ p.2.model_prefixes,
        pyStartsWith (resolve_alias cfg model) pre = true) →
      ∃ l₁ p l₂, cfg.backends = l₁ ++ p :: l₂ ∧
        (∃ pre ∈ p.2.model_prefixes,
          pyStartsWith (resolve_alias cfg model) pre = true) ∧
        (∀ q ∈ l₁, ∀ pre ∈ q.2.model_prefixes,
          pyStartsWith (resolve_alias cfg model) pre = false) ∧
        get_backend_for_model cfg model = .ok p.1) ∧
    (get_backend_for_model cfg model =
        .error (400, "Unknown model: " ++ resolve_alias cfg model) ↔
      ∀ p ∈ cfg.backends, resolve_alias cfg model ∉ p.2.models ∧
        ∀ pre ∈ p.2.model_prefixes,
          pyStartsWith (resolve_alias cfg model) pre = false) := by
  refine ⟨?_, ?_, ?_⟩
  · rintro ⟨p, hp, hmem⟩
    rcases hfind : cfg.backends.find?
        (fun b => b.2.models.contains (resolve_alias cfg model)) with _ | q
    · rw [List.find?_eq_none] at hfind
      exact absurd (by simpa using hmem) (by simpa using hfind p hp)
    · obtain ⟨hq, l₁, l₂, heq, hprev⟩ := List.find?_eq_some.mp hfind
      refine ⟨l₁, q, l₂, heq, by simpa using hq, ?_, ?_⟩
      · intro q' hq'
        have := hprev q' hq'
        simpa using this
      · unfold get_backend_for_model
        rw [hfind]
  · intro hnone hpre
    have h₁ : cfg.backends.find?
        (fun b => b.2.models.contains (resolve_alias cfg model)) = none := by
      rw [List.find?_eq_none]
      intro p hp
      simpa using hnone p hp
    rcases hfind : cfg.backends.find? (fun b =>
        b.2.model_prefixes.any
          (fun p => pyStartsWith (resolve_alias cfg model) p)) with _ | q
    · rw [List.find?_eq_none] at hfind
      obtain ⟨p, hp, pre, hpre', hsw⟩ := hpre
      have hf := hfind p hp
      simp at hf
      have := hf pre hpre'
      rw [hsw] at this
      cases this
    · obtain ⟨hq, l₁, l₂, heq, hprev⟩ := List.find?_eq_some.mp hfind
      refine ⟨l₁, q, l₂, heq, by simpa using hq, ?_, ?_⟩
      · intro q' hq' pre hpre'
        have := hprev q' hq'
        simp at this
        simpa using this pre hpre'
      · unfold get_backend_for_model
        rw [h₁, hfind]
  · constructor
    · intro herr
      unfold get_backend_for_model at herr
      rcases h₁ : cfg.backends.find?
          (fun b => b.2.models.contains (resolve_alias cfg model)) with _ | q
      · rcases h₂ : cfg.backends.find? (fun b =>
            b.2.model_prefixes.any
              (fun p => pyStartsWith (resolve_alias cfg model) p)) with _ | q
        · rw [List.find?_eq_none] at h₁ h₂
          intro p hp
          refine ⟨by simpa using h₁ p hp, ?_⟩
          intro pre hpre
          have := h₂ p hp
          simp at this
          simpa using this pre hpre
        · rw [h₁, h₂] at herr
          simp at herr
      · rw [h₁] at herr
        simp at herr
    · intro hall
      have h₁ : cfg.backends.find?
          (fun b => b.2.models.contains (resolve_alias cfg model)) = none := by
        rw [List.find?_eq_none]
        intro p hp
        simpa using (hall p hp).1
      have h₂ : cfg.backends.find? (fun b =>
          b.2.model_prefixes.any
            (fun p => pyStartsWith (resolve_alias cfg model) p)) = none := by
        rw [List.find?_eq_none]
        intro p hp
        simp
        intro pre hpre
        simpa using (hall p hp).2 pre hpre
      unfold get_backend_for_model
      rw [h₁, h₂]

/-- C4 witness: in the concrete registry, `"gpt-4"` resolves through the
exact-match phase to the first backend owning it, with every earlier
backend missing it. -/
theorem C4_resolution_order_witness :
    ∃ l₁ p l₂, testCfg.backends = l₁ ++ p :: l₂ ∧
      resolve_alias testCfg "gpt-4" ∈ p.2.models ∧
      (∀ q ∈ l₁, resolve_alias testCfg "gpt-4" ∉ q.2.models) ∧
      get_backend_for_model testCfg "gpt-4" = .ok p.1 :=
  (C4_resolution_order testCfg "gpt-4").1
    ⟨("openai", testOpenAIBackend), by decide, by decide⟩

/-- The `Unknown model` message can never collide with the missing-messages
rejection: the first characters differ. -/
theorem unknown_model_ne_missing (m : String) :
    ("Unknown model: " ++ m) ≠ "Missing required field: messages" := by
  intro hcontra
  have h := congrArg (fun s => s.data.head?) hcontra
  simp only [String.data_append] at h
  simp at h

/-- Likewise for the backend-not-found message. -/
theorem backend_not_found_ne_missing (n : String) :
    ("Backend " ++ n ++ " not found in configuration") ≠
      "Missing required field: messages" := by
  intro hcontra
  have h := congrArg (fun s => s.data.head?) hcontra
  simp only [String.data_append] at h
  simp at h

/-- Likewise for the missing-credential-configuration message. -/
theorem no_api_key_ne_missing (n : String) :
    ("No API key environment variable configured for " ++ n) ≠
      "Missing required field: messages" := by
  intro hcontra
  have h := congrArg (fun s => s.data.head?) hcontra
  simp only [String.data_append] at h
  simp at h

/-- Resolution can fail only with the `Unknown model` tuple. -/
theorem get_backend_error_shape (cfg : RouterConfig) (model : String)
    (e : Nat × String) (h : get_backend_for_model cfg model = .error e) :
    e = (400, "Unknown model: " ++ resolve_alias cfg model) := by
  unfold get_backend_for_model at h
  rcases h₁ : cfg.backends.find?
      (fun b => b.2.models.contains (resolve_alias cfg model)) with _ | q <;>
    rw [h₁] at h
  · rcases h₂ : cfg.backends.find? (fun b =>
        b.2.model_prefixes.any
          (fun p => pyStartsWith (resolve_alias cfg model) p)) with _ | q <;>
      rw [h₂] at h
    · simp at h
      exact h.symm
    · simp at h
  · simp at h

/-- Credential resolution can fail only with the no-env-name tuple. -/
theorem get_api_key_error_shape (env : Env) (n : String) (bc : Backend)
    (e : Nat × String) (h : get_api_key_for_backend env n bc = .error e) :
    e = (500, "No API key environment variable configured for " ++ n) := by
  unfold get_api_key_for_backend at h
  rcases ht : strTruthy bc.api_key_env with _ | k <;> rw [ht] at h
  · simp at h
    exact h.symm
  · rcases hv : strTruthy (osGetenv env k) with _ | v <;> simp [hv] at h

/-- Every error `choose_backend` can produce carries one of three message
shapes, none of which is the missing-messages rejection. -/
theorem choose_backend_error_ne_missing (cfg : RouterConfig) (env : Env)
    (model : String) (e : Nat × String)
    (h : choose_backend cfg env model = .error e) :
    e.2 ≠ "Missing required field: messages" := by
  unfold choose_backend at h
  rcases hbm : get_backend_for_model cfg model with e' | name <;> rw [hbm] at h
  · simp only [Bind.bind, Except.bind] at h
    cases h
    have he := get_backend_error_shape cfg model _ hbm
    rw [he]
    exact unknown_model_ne_missing _
  · simp only [Bind.bind, Except.bind] at h
    rcases hl : cfg.backends.lookup name with _ | bc <;> simp only [hl] at h
    · cases h
      exact backend_not_found_ne_missing name
    · rcases hk : get_api_key_for_backend env name bc with ek | key <;>
        simp only [hk] at h
      · cases h
        have he := get_api_key_error_shape env name bc _ hk
        rw [he]
        exact no_api_key_ne_missing name
      · exact Except.noConfusion h

/-- C10: a request body with non-empty `messages` and no `model` field is
not rejected for the missing model — it is dispatched exactly as if the
model were `"gpt-3.5-turbo"`, and the outcome is never the missing-field
rejection. -/
theorem C10_default_model (cfg : RouterConfig) (env : Env)
    (msgs : List OAIMessage) (stream : Bool) (h : msgs ≠ []) :
    proxy_dispatch cfg env { model := none, messages := msgs, stream := stream } =
      proxy_dispatch cfg env
        { model := some "gpt-3.5-turbo", messages := msgs, stream := stream } ∧
    proxy_dispatch cfg env { model := none, messages := msgs, stream := stream } ≠
      .error (400, "Missing required field: messages") := by
  refine ⟨rfl, ?_⟩
  unfold proxy_dispatch
  have hne : msgs.isEmpty = false := by
    simpa [List.isEmpty_iff] using h
  simp only [hne, Option.getD]
  rcases hcb : choose_backend cfg env "gpt-3.5-turbo" with e | b <;>
    simp only [hcb, Bind.bind, Except.bind]
  · intro h400
    injection h400 with he
    exact choose_backend_error_ne_missing cfg env _ e hcb (by rw [he])
  · simp

/-- C10 witness: the concrete registry routes a model-less request like an
explicit `"gpt-3.5-turbo"` request. -/
theorem C10_default_model_witness :
    proxy_dispatch testCfg [] { model := none, messages := [⟨"user", "Hi"⟩] } =
      proxy_dispatch testCfg []
        { model := some "gpt-3.5-turbo", messages := [⟨"user", "Hi"⟩] } ∧
    proxy_dispatch testCfg [] { model := none, messages := [⟨"user", "Hi"⟩] } ≠
      .error (400, "Missing required field: messages") :=
  C10_default_model testCfg [] [⟨"user", "Hi"⟩] false (by decide)

end LlmRouter
